import Mathlib

set_option maxRecDepth 100000

/-!
Shallow embedding of the Portfolio-Advisor-Chatbot backend
(src/backend/main.py): NLP processor, market data gateway, portfolio
store, analytics engine and chat router, with theorems checking the
design claims against the code.

Python floats are modelled as exact rationals; the store (sqlite) is
modelled as an explicit state of rows; collaborator faults are injected
through an `Option String` oracle and surface as `Except.error`.
-/

/-- Floor of a rational number, via floored integer division. -/
def qfloor (x : ℚ) : ℤ := Int.fdiv x.num x.den

/-- Python `round(x, 2)`: round to 2 decimal places, half to even, on
exact rationals. -/
def round2 (x : ℚ) : ℚ :=
  let y : ℚ := x * 100
  let f : ℤ := qfloor y
  let r : ℚ := y - (f : ℚ)
  let n : ℤ :=
    if r < 1/2 then f
    else if 1/2 < r then f + 1
    else if f % 2 = 0 then f else f + 1
  (n : ℚ) / 100

/-- The entity map built by `NLPProcessor.extract_entities`: each key is
omitted (`none`) when nothing was found. -/
structure Entities where
  symbols : Option (List String)
  numbers : Option (List ℚ)
  condition : Option String
deriving DecidableEq

/-- The `Intent` dataclass of main.py. -/
structure Intent where
  action : String
  entities : Entities
  confidence : ℚ
deriving DecidableEq

/-- Word character of the regex `\b` boundary (`[A-Za-z0-9_]`, ASCII). -/
def isWordChar (c : Char) : Bool := c.isAlpha || c.isDigit || c = '_'

/-- Splits a character list into its maximal runs of word characters
(`acc` carries the current run, reversed). -/
def wordRunsAux : List Char → List Char → List (List Char)
  | acc, [] => if acc.isEmpty then [] else [acc.reverse]
  | acc, c :: t =>
    if isWordChar c then wordRunsAux (c :: acc) t
    else if acc.isEmpty then wordRunsAux [] t
    else acc.reverse :: wordRunsAux [] t

/-- Maximal word-character runs of a character list, in order. -/
def wordRuns (cs : List Char) : List (List Char) := wordRunsAux [] cs

/-- Uppercase ASCII letter test (regex class `[A-Z]`). -/
def isUpperAZ (c : Char) : Bool := decide ('A' ≤ c) && decide (c ≤ 'Z')

/-- A word run matched by `re.findall(r'\b[A-Z]{2,4}\b', text.upper())`:
entirely uppercase letters, length 2 to 4.  (Inside a longer word run
there is no `\b` boundary, so exactly the full runs of this shape are
the matches of the Python scan.) -/
def isTickerRun (r : List Char) : Bool :=
  decide (2 ≤ r.length) && decide (r.length ≤ 4) && r.all isUpperAZ

/-- Symbol extraction of `extract_entities`: scan the uppercased text for
2-4 letter all-uppercase words, in order of appearance, duplicates kept. -/
def extractSymbols (text : String) : List String :=
  ((wordRuns (text.data.map Char.toUpper)).filter isTickerRun).map (fun r => String.mk r)

/-- Scanner state for `re.findall(r'\d+\.?\d*', text)`: outside a number,
inside the integer part, or inside the fractional part. -/
inductive NumSt where
  | out
  | intPart
  | fracPart
deriving DecidableEq

/-- One left-to-right pass implementing `re.findall(r'\d+\.?\d*', text)`:
a token is a maximal digit run, optionally followed by one dot and a
digit run (`acc` carries the current token, reversed). -/
def numScan : NumSt → List Char → List Char → List (List Char)
  | .out, _, [] => []
  | .intPart, acc, [] => [acc.reverse]
  | .fracPart, acc, [] => [acc.reverse]
  | .out, _, c :: t =>
    if c.isDigit then numScan .intPart [c] t else numScan .out [] t
  | .intPart, acc, c :: t =>
    if c.isDigit then numScan .intPart (c :: acc) t
    else if c = '.' then numScan .fracPart (c :: acc) t
    else acc.reverse :: numScan .out [] t
  | .fracPart, acc, c :: t =>
    if c.isDigit then numScan .fracPart (c :: acc) t
    else acc.reverse :: numScan .out [] t

/-- The numeric tokens of a text, in order of appearance. -/
def numTokens (cs : List Char) : List (List Char) := numScan .out [] cs

/-- Value of a digit list read in base 10. -/
def digitsToNat (ds : List Char) : ℕ :=
  ds.foldl (fun a c => a * 10 + (c.toNat - '0'.toNat)) 0

/-- Powers of ten, as a structurally recursive function so that concrete
values reduce in the kernel. -/
def pow10 : ℕ → ℕ
  | 0 => 1
  | n + 1 => 10 * pow10 n

/-- Python `float` applied to a matched numeric token
(`123`, `12.5`, `3.` all parse; the token shape guarantees this). -/
def parseNum (tok : List Char) : ℚ :=
  let ip := tok.takeWhile Char.isDigit
  let rest := tok.dropWhile Char.isDigit
  let fp := match rest with
    | '.' :: f => f
    | _ => []
  (digitsToNat ip : ℚ) + (digitsToNat fp : ℚ) / (pow10 fp.length : ℚ)

/-- Substring test (`needle in hay` for Python strings, as char lists). -/
def containsSub (needle : List Char) : List Char → Bool
  | [] => needle.isEmpty
  | c :: t => needle.isPrefixOf (c :: t) || containsSub needle t

/-- `w in text` for a lowercased text given as a char list. -/
def containsWord (low : List Char) (w : String) : Bool := containsSub w.data low

/-- `NLPProcessor.extract_entities`: symbols from the uppercased text,
numbers from the original text, a directional condition from
case-insensitive substring search ("above" family checked first); keys
with no match are omitted. -/
def extract_entities (text : String) : Entities :=
  let low := text.data.map Char.toLower
  let symbols := extractSymbols text
  let numbers := (numTokens text.data).map parseNum
  { symbols := if symbols.isEmpty then none else some symbols,
    numbers := if numbers.isEmpty then none else some numbers,
    condition :=
      if ["above", "over", "higher"].any (containsWord low) then some "above"
      else if ["below", "under", "lower"].any (containsWord low) then some "below"
      else none }

/-- Backtracking matcher for the pattern table's regexes, which are all
literal chunks separated by `.*`.  `reMatchF fuel gapMode cs s` holds
when `c1 .* c2 .* ... ck` matches a prefix-region of `s`, the first
chunk anchored at the start when `gapMode = false`; a `.*` gap may skip
any characters except a newline (Python `.` does not match `\n`).  The
fuel makes the recursion structural; every call strictly decreases the
measure `2 * s.length + cs.length`, so fuel above that never runs out. -/
def reMatchF : ℕ → Bool → List (List Char) → List Char → Bool
  | 0, _, _, _ => false
  | _, _, [], _ => true
  | fuel + 1, gapMode, c :: rest, s =>
    (c.isPrefixOf s && reMatchF fuel true rest (s.drop c.length))
    || (gapMode && (match s with
        | [] => false
        | a :: t => (a != '\n') && reMatchF fuel true (c :: rest) t))

/-- The chunk matcher started with adequate fuel. -/
def reMatch (gapMode : Bool) (cs : List (List Char)) (s : List Char) : Bool :=
  reMatchF (2 * s.length + cs.length + 1) gapMode cs s

/-- `re.search(pattern, s)` for a chunk pattern: try the anchored match
at every position of `s`. -/
def reSearch (cs : List (List Char)) : List Char → Bool
  | [] => reMatch false cs []
  | a :: t => reMatch false cs (a :: t) || reSearch cs t

/-- The `intent_patterns` table of `NLPProcessor`, in source order; each
regex is stored as its literal chunks (separators `.*` implicit). -/
def intentPatterns : List (String × List (List String)) :=
  [("show_portfolio",
     [["show", "portfolio"], ["my", "holdings"], ["portfolio", "summary"],
      ["what", "do", "i", "own"], ["current", "portfolio"]]),
   ("add_alert",
     [["alert", "me", "if"], ["notify", "when"], ["tell", "me", "if"],
      ["set", "alert"], ["watch", "for"]]),
   ("compare_stocks",
     [["compare", "vs"], ["compare", "and"], ["vs"],
      ["difference", "between"], ["which", "better"]]),
   ("simulate",
     [["what", "if", "buy"], ["simulate", "buying"], ["if", "i", "bought"],
      ["scenario", "where"], ["what", "would", "happen"]]),
   ("add_holding",
     [["i", "bought"], ["add", "to", "portfolio"], ["i", "own"],
      ["purchased", "shares"], ["bought", "shares"]]),
   ("stock_price",
     [["price", "of"], ["current", "price"], ["how", "much", "is"],
      ["what", "is", "trading"], ["price", "now"]])]

/-- `re.search` of one table pattern against the lowercased text. -/
def patMatches (p : List String) (s : List Char) : Bool :=
  reSearch (p.map String.data) s

/-- Whether any pattern of one intent's list matches the lowercased text. -/
def intentMatches (text : String) (ip : String × List (List String)) : Bool :=
  ip.2.any (fun p => patMatches p (text.data.map Char.toLower))

/-- `NLPProcessor.classify_intent`: first intent (in table order) with a
matching pattern wins, confidence 0.8; otherwise fall back to
`stock_price` with confidence 0.5.  Entities always come from
`extract_entities` on the original text. -/
def classify_intent (text : String) : Intent :=
  match intentPatterns.find? (intentMatches text) with
  | some ip => { action := ip.1, entities := extract_entities text, confidence := 4/5 }
  | none => { action := "stock_price", entities := extract_entities text, confidence := 1/2 }

example : extract_entities "AAPL 10 TSLA 20" =
    ⟨some ["AAPL", "TSLA"], some [10, 20], none⟩ := by with_unfolding_all decide

example : (classify_intent "I bought AAPL").action = "add_holding" := by with_unfolding_all decide

example : classify_intent "xyz" =
    ⟨"stock_price", ⟨some ["XYZ"], none, none⟩, 1/2⟩ := by with_unfolding_all decide

/-- The quote dictionary built by `MarketDataAPI.get_stock_info` on
success; `trailingPE` is `none` when the provider reports "N/A". -/
structure Quote where
  symbol : String
  name : String
  current_price : ℚ
  currency : String
  sector : String
  market_cap : ℚ
  trailingPE : Option ℚ
  day_change : ℚ
deriving DecidableEq

deriving instance DecidableEq for Except

/-- The market data gateway as the analytics engine and router see it:
`get_stock_info` returns either an `{"error": ...}` dictionary or a
quote dictionary, and never raises. -/
def Market : Type := String → Except String Quote

/-- One OHLC bar of `stock.history` (only the columns the code reads). -/
structure Bar where
  opn : ℚ
  cls : ℚ
deriving DecidableEq

/-- The `stock.info` fields read by `get_stock_info`; `none` models a
missing key (`info.get` default applies). -/
structure YfInfo where
  shortName : Option String
  currency : Option String
  sector : Option String
  marketCap : Option ℚ
  trailingPE : Option ℚ
deriving DecidableEq

/-- `MarketDataAPI.get_stock_info`, as a function of the yfinance fetch
outcome (`.error` when the `try` body raised): if the history is empty
it returns the `No data found` error dictionary; otherwise it builds the
quote from the last bar.  The `if hist.length > 0 then ... else 0`
mirrors the dead guard on `day_change` in the source. -/
def get_stock_info (symbol : String) (fetched : Except String (YfInfo × List Bar)) :
    Except String Quote :=
  match fetched with
  | .error e => .error ("Error fetching data for " ++ symbol ++ ": " ++ e)
  | .ok (info, hist) =>
    match hist.getLast? with
    | none => .error ("No data found for " ++ symbol)
    | some lastBar =>
      .ok { symbol := symbol,
            name := info.shortName.getD "N/A",
            current_price := round2 lastBar.cls,
            currency := info.currency.getD "USD",
            sector := info.sector.getD "N/A",
            market_cap := info.marketCap.getD 0,
            trailingPE := info.trailingPE,
            day_change := if hist.length > 0 then round2 (lastBar.cls - lastBar.opn) else 0 }

/-- A row of the `holdings` table (UNIQUE(user_id, symbol)). -/
structure HoldingRow where
  user_id : String
  symbol : String
  quantity : ℚ
  buy_price : ℚ
  buy_date : String
deriving DecidableEq

/-- A row of the `alerts` table. -/
structure AlertRow where
  user_id : String
  symbol : String
  condition : String
  price : ℚ
  active : Bool
  created_date : String
deriving DecidableEq

/-- A row of the `transactions` table. -/
structure TransactionRow where
  user_id : String
  symbol : String
  action : String
  quantity : ℚ
  price : ℚ
  date : String
deriving DecidableEq

/-- The sqlite database contents used by `PortfolioDatabase`. -/
structure DbState where
  holdings : List HoldingRow
  alerts : List AlertRow
  transactions : List TransactionRow
deriving DecidableEq

/-- The freshly initialised database. -/
def emptyDb : DbState := ⟨[], [], []⟩

/-- `PortfolioDatabase.add_holding`, effect on the state:
`INSERT OR REPLACE` under UNIQUE(user_id, symbol) deletes any
conflicting row and inserts the new one, and one `BUY` transaction is
appended to the log. -/
def addHoldingPure (uid symbol : String) (quantity buy_price : ℚ) (now : String)
    (st : DbState) : DbState :=
  { st with
    holdings := st.holdings.filter (fun h => !(h.user_id == uid && h.symbol == symbol))
      ++ [⟨uid, symbol, quantity, buy_price, now⟩],
    transactions := st.transactions ++ [⟨uid, symbol, "BUY", quantity, buy_price, now⟩] }

/-- `PortfolioDatabase.add_alert`, effect on the state: plain insert,
active = 1. -/
def addAlertPure (uid symbol condition : String) (price : ℚ) (now : String)
    (st : DbState) : DbState :=
  { st with alerts := st.alerts ++ [⟨uid, symbol, condition, price, true, now⟩] }

/-- `PortfolioDatabase.get_portfolio`: the user's holdings rows.  The
`fault` oracle models the store raising (e.g. sqlite unavailable). -/
def dbGetPortfolio (fault : Option String) (uid : String) (st : DbState) :
    Except String (List HoldingRow) :=
  match fault with
  | some e => .error e
  | none => .ok (st.holdings.filter (fun h => h.user_id == uid))

/-- `PortfolioDatabase.add_holding` behind the fault oracle. -/
def dbAddHolding (fault : Option String) (uid symbol : String) (q p : ℚ) (now : String)
    (st : DbState) : Except String DbState :=
  match fault with
  | some e => .error e
  | none => .ok (addHoldingPure uid symbol q p now st)

/-- `PortfolioDatabase.add_alert` behind the fault oracle. -/
def dbAddAlert (fault : Option String) (uid symbol condition : String) (price : ℚ)
    (now : String) (st : DbState) : Except String DbState :=
  match fault with
  | some e => .error e
  | none => .ok (addAlertPure uid symbol condition price now st)

/-- One line of the `portfolio_details` list built by
`AnalyticsEngine.calculate_portfolio_value`. -/
structure ValuationEntry where
  symbol : String
  name : String
  quantity : ℚ
  buy_price : ℚ
  current_price : ℚ
  current_value : ℚ
  cost_basis : ℚ
  profit_loss : ℚ
  profit_loss_pct : ℚ
deriving DecidableEq

/-- The aggregate valuation report of `calculate_portfolio_value`. -/
structure ValuationReport where
  total_value : ℚ
  total_cost : ℚ
  total_profit_loss : ℚ
  total_profit_loss_pct : ℚ
  holdings : List ValuationEntry
deriving DecidableEq

/-- Result of `calculate_portfolio_value`: the explicit empty-portfolio
message dictionary, or the report. -/
inductive PVResult where
  | noHoldings
  | report (r : ValuationReport)
deriving DecidableEq

/-- The per-holding detail line of the valuation loop. -/
def mkEntry (h : HoldingRow) (info : Quote) : ValuationEntry :=
  let cv := h.quantity * info.current_price
  let cb := h.quantity * h.buy_price
  let pl := cv - cb
  { symbol := h.symbol,
    name := info.name,
    quantity := h.quantity,
    buy_price := h.buy_price,
    current_price := info.current_price,
    current_value := round2 cv,
    cost_basis := round2 cb,
    profit_loss := round2 pl,
    profit_loss_pct := if cb > 0 then round2 (pl / cb * 100) else 0 }

/-- The `for holding in holdings` loop of `calculate_portfolio_value`:
accumulated (total_value, total_cost, portfolio_details); holdings whose
quote fails are skipped.  (The left-to-right `+=` accumulation is
written as a right fold; on exact rationals the sums agree.) -/
def pvLoop (mkt : Market) : List HoldingRow → ℚ × ℚ × List ValuationEntry
  | [] => (0, 0, [])
  | h :: rest =>
    match mkt h.symbol with
    | .error _ => pvLoop mkt rest
    | .ok info =>
      let r := pvLoop mkt rest
      (h.quantity * info.current_price + r.1,
       h.quantity * h.buy_price + r.2.1,
       mkEntry h info :: r.2.2)

/-- `AnalyticsEngine.calculate_portfolio_value`: read the holdings (the
only store access — the state is returned unchanged), return the
empty-portfolio message when there are none, otherwise aggregate and
round at the point of output. -/
def calculate_portfolio_value (fault : Option String) (mkt : Market) (uid : String)
    (st : DbState) : Except String (PVResult × DbState) := do
  let holdings ← dbGetPortfolio fault uid st
  if holdings.isEmpty then
    pure (.noHoldings, st)
  else
    let r := pvLoop mkt holdings
    pure (.report {
      total_value := round2 r.1,
      total_cost := round2 r.2.1,
      total_profit_loss := round2 (r.1 - r.2.1),
      total_profit_loss_pct := if r.2.1 > 0 then round2 ((r.1 - r.2.1) / r.2.1 * 100) else 0,
      holdings := r.2.2 }, st)

/-- `AnalyticsEngine.compare_stocks`: quote each symbol, keep the
successful ones in input order. -/
def compare_stocks (mkt : Market) (symbols : List String) : List (String × Quote) :=
  symbols.filterMap (fun s =>
    match mkt s with
    | .ok info => some (s, info)
    | .error _ => none)

/-- The `simulation` dictionary of `AnalyticsEngine.simulate_purchase`. -/
structure Simulation where
  symbol : String
  quantity : ℚ
  price_per_share : ℚ
  total_cost : ℚ
  current_portfolio_value : ℚ
  new_portfolio_value : ℚ
deriving DecidableEq

/-- `current_portfolio.get('total_value', 0)`. -/
def pvTotalValue : PVResult → ℚ
  | .noHoldings => 0
  | .report r => r.total_value

/-- `AnalyticsEngine.simulate_purchase`: a failed quote is returned
verbatim as the whole result; otherwise project the new portfolio value
from `calculate_portfolio_value`.  No store write occurs; the outer
`Except` carries store faults raised inside `calculate_portfolio_value`. -/
def simulate_purchase (fault : Option String) (mkt : Market) (uid symbol : String)
    (quantity : ℚ) (st : DbState) : Except String ((Except String Simulation) × DbState) :=
  match mkt symbol with
  | .error e => .ok (.error e, st)
  | .ok info => do
    let (pv, st') ← calculate_portfolio_value fault mkt uid st
    let purchase_cost := quantity * info.current_price
    pure (.ok {
      symbol := symbol,
      quantity := quantity,
      price_per_share := info.current_price,
      total_cost := round2 purchase_cost,
      current_portfolio_value := pvTotalValue pv,
      new_portfolio_value := round2 (pvTotalValue pv + purchase_cost) }, st')

/-- The `response` object of the chat endpoint.  Constructors carrying
values stand for the corresponding dictionaries (`message`/`err` for
`{"message": s}` / `{"error": s}`, `confirmAlert`/`confirmAdd` for the
interpolated confirmation f-strings with their data). -/
inductive Response where
  | message (s : String)
  | err (s : String)
  | valuation (r : PVResult)
  | comparison (m : List (String × Quote))
  | simulation (r : Except String Simulation)
  | stock (r : Except String Quote)
  | confirmAlert (symbol condition : String) (price : ℚ)
  | confirmAdd (symbol : String) (quantity price : ℚ)
deriving DecidableEq

/-- The uniform `{intent, response}` envelope of the chat endpoint. -/
structure Envelope where
  intent : Intent
  response : Response
deriving DecidableEq

/-- Python `lst[0]`: raises `IndexError` on an empty list. -/
def index0 {α : Type} (l : List α) : Except String α :=
  match l with
  | [] => .error "list index out of range"
  | x :: _ => .ok x

/-- Python `lst[1]`. -/
def index1 {α : Type} (l : List α) : Except String α :=
  match l with
  | _ :: y :: _ => .ok y
  | _ => .error "list index out of range"

/-- Python `intent.entities['numbers']`: raises `KeyError('numbers')`
(whose `str` is `'numbers'`) when the key is absent.  The add_holding
guard evaluates this without first checking key presence. -/
def getNumbersKey (e : Entities) : Except String (List ℚ) :=
  match e.numbers with
  | some l => .ok l
  | none => .error "\x27numbers\x27"

/-- The final else-branch message of the dispatcher. -/
def didntUnderstand : String :=
  "I didn\x27t understand that command. Try asking about your portfolio, setting alerts, or comparing stocks."

/-- The `try` body of `chat_endpoint`: route on `intent.action`; a
raised fault (store fault, KeyError, IndexError) is an `Except.error`
for the boundary handler. -/
def dispatch (fault : Option String) (mkt : Market) (intent : Intent) (uid now : String)
    (st : DbState) : Except String (Response × DbState) :=
  if intent.action = "show_portfolio" then do
    let (pv, st') ← calculate_portfolio_value fault mkt uid st
    pure (.valuation pv, st')
  else if intent.action = "add_alert" then
    match intent.entities.symbols, intent.entities.numbers, intent.entities.condition with
    | some syms, some nums, some condition => do
      let symbol ← index0 syms
      let price ← index0 nums
      let st' ← dbAddAlert fault uid symbol condition price now st
      pure (.confirmAlert symbol condition price, st')
    | _, _, _ =>
      pure (.message "Please specify symbol, price, and condition (above/below)", st)
  else if intent.action = "compare_stocks" then
    match intent.entities.symbols with
    | some syms =>
      if syms.length ≥ 2 then
        pure (.comparison (compare_stocks mkt (syms.take 2)), st)
      else
        pure (.message "Please specify at least 2 stock symbols to compare", st)
    | none => pure (.message "Please specify at least 2 stock symbols to compare", st)
  else if intent.action = "simulate" then
    match intent.entities.symbols, intent.entities.numbers with
    | some syms, some nums => do
      let symbol ← index0 syms
      let quantity ← index0 nums
      let (res, st') ← simulate_purchase fault mkt uid symbol quantity st
      pure (.simulation res, st')
    | _, _ => pure (.message "Please specify symbol and quantity for simulation", st)
  else if intent.action = "add_holding" then
    match intent.entities.symbols with
    | some syms => do
      let nums ← getNumbersKey intent.entities
      if nums.length ≥ 2 then do
        let symbol ← index0 syms
        let quantity ← index0 nums
        let price ← index1 nums
        let st' ← dbAddHolding fault uid symbol quantity price now st
        pure (.confirmAdd symbol quantity price, st')
      else
        pure (.message "Please specify symbol, quantity, and purchase price", st)
    | none => pure (.message "Please specify symbol, quantity, and purchase price", st)
  else if intent.action = "stock_price" then
    match intent.entities.symbols with
    | some syms => do
      let symbol ← index0 syms
      pure (.stock (mkt symbol), st)
    | none => pure (.message "Please specify a stock symbol", st)
  else
    pure (.message didntUnderstand, st)

/-- The `/chat` endpoint: classify, dispatch inside the `try`, convert
any raised fault into the `{"error": "An error occurred: ..."}` response
object (the state mutation of a faulting branch never commits), and wrap
intent and response into the envelope.  Total by construction: no fault
propagates to the caller. -/
def chat_endpoint (fault : Option String) (mkt : Market) (uid message now : String)
    (st : DbState) : Envelope × DbState :=
  let intent := classify_intent message
  match dispatch fault mkt intent uid now st with
  | .ok (resp, st') => (⟨intent, resp⟩, st')
  | .error e => (⟨intent, .err ("An error occurred: " ++ e)⟩, st)

/-- A market in which every lookup fails. -/
def mktFail : Market := fun _ => .error "no data"

/-- A fixed AAPL quote at price 120. -/
def quote120 : Quote :=
  { symbol := "AAPL", name := "Apple Inc.", current_price := 120, currency := "USD",
    sector := "Technology", market_cap := 0, trailingPE := none, day_change := 1 }

/-- A market knowing only AAPL (at 120). -/
def mkt4 : Market := fun s => if s = "AAPL" then .ok quote120 else .error ("No data found for " ++ s)

/-- A store with the single holding 10 AAPL bought at 100. -/
def db4 : DbState := ⟨[⟨"u1", "AAPL", 10, 100, "2024-01-01"⟩], [], []⟩

/-- The valuation report expected for `db4` under `mkt4`. -/
def rpt4 : ValuationReport :=
  { total_value := 1200, total_cost := 1000, total_profit_loss := 200,
    total_profit_loss_pct := 20,
    holdings := [⟨"AAPL", "Apple Inc.", 10, 100, 120, 1200, 1000, 200, 20⟩] }

/-- `db4` plus a second holding whose symbol the market cannot price. -/
def db5 : DbState :=
  ⟨[⟨"u1", "AAPL", 10, 100, "2024-01-01"⟩, ⟨"u1", "ZZZZ", 5, 50, "2024-01-02"⟩], [], []⟩

example : calculate_portfolio_value none mkt4 "u1" db4 = .ok (.report rpt4, db4) := by
  with_unfolding_all decide

example : calculate_portfolio_value none mkt4 "u1" db5 = .ok (.report rpt4, db5) := by
  with_unfolding_all decide

example :
    (chat_endpoint none mktFail "u1" "I bought AAPL" "t" emptyDb).1.response
      = Response.err "An error occurred: \x27numbers\x27" := by
  with_unfolding_all decide

example :
    (chat_endpoint (some "db down") mktFail "u1" "show portfolio" "t" emptyDb).1.response
      = Response.err "An error occurred: db down" := by
  with_unfolding_all decide

example :
    (chat_endpoint none mkt4 "u1" "I bought 10 AAPL at 150" "t" emptyDb)
      = (⟨⟨"add_holding", ⟨some ["AAPL", "AT"], some [10, 150], none⟩, 4/5⟩,
          .confirmAdd "AAPL" 10 150⟩,
         ⟨[⟨"u1", "AAPL", 10, 150, "t"⟩], [], [⟨"u1", "AAPL", "BUY", 10, 150, "t"⟩]⟩) := by
  with_unfolding_all decide

/-- The six actions of the `intent_patterns` table. -/
def knownActions : List String :=
  ["show_portfolio", "add_alert", "compare_stocks", "simulate", "add_holding", "stock_price"]

/-- Whether the market prices a holding's symbol. -/
def isPriced (mkt : Market) (h : HoldingRow) : Bool :=
  match mkt h.symbol with
  | .ok _ => true
  | .error _ => false

/-- The holdings whose quote lookup succeeds. -/
def pricedHoldings (mkt : Market) (hs : List HoldingRow) : List HoldingRow :=
  hs.filter (isPriced mkt)

/-- The quoted current price of a holding's symbol (0 when unpriced;
only used on priced holdings). -/
def priceOf (mkt : Market) (h : HoldingRow) : ℚ :=
  match mkt h.symbol with
  | .ok q => q.current_price
  | .error _ => 0

/-- The quote of a holding's symbol (dummy when unpriced; only used on
priced holdings). -/
def quoteOf (mkt : Market) (h : HoldingRow) : Quote :=
  match mkt h.symbol with
  | .ok q => q
  | .error _ => ⟨"", "", 0, "", "", 0, none, 0⟩

/-- The holdings rows `get_portfolio` returns for a user. -/
def userHoldings (uid : String) (st : DbState) : List HoldingRow :=
  st.holdings.filter (fun h => h.user_id == uid)

/-- Sum of quantity × current price over the priced holdings. -/
def sumCV (mkt : Market) (hs : List HoldingRow) : ℚ :=
  ((pricedHoldings mkt hs).map (fun h => h.quantity * priceOf mkt h)).sum

/-- Sum of quantity × buy price over the priced holdings. -/
def sumCB (mkt : Market) (hs : List HoldingRow) : ℚ :=
  ((pricedHoldings mkt hs).map (fun h => h.quantity * h.buy_price)).sum

/-- The UNIQUE(user_id, symbol) key of a holdings row. -/
def holdingKey (h : HoldingRow) : String × String := (h.user_id, h.symbol)

/-- The holdings-table uniqueness invariant: at most one row per
(user_id, symbol). -/
def uniqueHoldingKeys (st : DbState) : Prop := (st.holdings.map holdingKey).Nodup

/-- The holdings row stored for (user_id, symbol), if any. -/
def findHolding (st : DbState) (uid symbol : String) : Option HoldingRow :=
  st.holdings.find? (fun h => h.user_id == uid && h.symbol == symbol)

instance (st : DbState) : Decidable (uniqueHoldingKeys st) := by
  unfold uniqueHoldingKeys
  infer_instance

/-- Entity-map well-formedness: a present key never holds an empty list. -/
def entitiesListsNonempty (e : Entities) : Bool :=
  (match e.symbols with
   | some l => !l.isEmpty
   | none => true)
  && (match e.numbers with
      | some l => !l.isEmpty
      | none => true)

/-- `calculate_portfolio_value` only reads the store: when it returns,
the state is unchanged. -/
theorem calcPV_state_eq (fault : Option String) (mkt : Market) (uid : String) (st : DbState)
    (pv : PVResult) (st' : DbState)
    (h : calculate_portfolio_value fault mkt uid st = .ok (pv, st')) : st' = st := by
  cases fault with
  | some e =>
    simp only [calculate_portfolio_value, dbGetPortfolio, bind, Except.bind] at h
    cases h
  | none =>
    simp only [calculate_portfolio_value, dbGetPortfolio, bind, Except.bind, pure,
      Except.pure] at h
    split at h <;> (injection h with h1; injection h1 with h2 h3; exact h3.symm)

/-- The valuation loop over a holdings list equals the loop over its
priced sublist: unpriced holdings leave no trace. -/
theorem pvLoop_skips_unpriced (mkt : Market) (hs : List HoldingRow) :
    pvLoop mkt hs = pvLoop mkt (pricedHoldings mkt hs) := by
  simp only [pricedHoldings]
  induction hs with
  | nil => rfl
  | cons h t ih =>
    cases hq : mkt h.symbol with
    | error e =>
      have hp : isPriced mkt h = false := by simp [isPriced, hq]
      simp only [List.filter_cons, hp, Bool.false_eq_true, if_false]
      rw [← ih]
      simp [pvLoop, hq]
    | ok info =>
      have hp : isPriced mkt h = true := by simp [isPriced, hq]
      simp only [List.filter_cons, hp, if_true]
      simp only [pvLoop, hq]
      rw [ih]

/-- The accumulated total value is the sum over the priced holdings. -/
theorem pvLoop_total_value (mkt : Market) (hs : List HoldingRow) :
    (pvLoop mkt hs).1 = sumCV mkt hs := by
  simp only [sumCV, pricedHoldings]
  induction hs with
  | nil => simp [pvLoop]
  | cons h t ih =>
    cases hq : mkt h.symbol with
    | error e =>
      have hp : isPriced mkt h = false := by simp [isPriced, hq]
      simp [pvLoop, hq, List.filter_cons, hp, ih]
    | ok info =>
      have hp : isPriced mkt h = true := by simp [isPriced, hq]
      have hpo : priceOf mkt h = info.current_price := by simp [priceOf, hq]
      simp [pvLoop, hq, List.filter_cons, hp, hpo, ih]

/-- The accumulated total cost is the sum over the priced holdings. -/
theorem pvLoop_total_cost (mkt : Market) (hs : List HoldingRow) :
    (pvLoop mkt hs).2.1 = sumCB mkt hs := by
  simp only [sumCB, pricedHoldings]
  induction hs with
  | nil => simp [pvLoop]
  | cons h t ih =>
    cases hq : mkt h.symbol with
    | error e =>
      have hp : isPriced mkt h = false := by simp [isPriced, hq]
      simp [pvLoop, hq, List.filter_cons, hp, ih]
    | ok info =>
      have hp : isPriced mkt h = true := by simp [isPriced, hq]
      simp [pvLoop, hq, List.filter_cons, hp, ih]

/-- The detail list is exactly the priced holdings, each with its entry. -/
theorem pvLoop_details (mkt : Market) (hs : List HoldingRow) :
    (pvLoop mkt hs).2.2 = (pricedHoldings mkt hs).map (fun h => mkEntry h (quoteOf mkt h)) := by
  simp only [pricedHoldings]
  induction hs with
  | nil => simp [pvLoop]
  | cons h t ih =>
    cases hq : mkt h.symbol with
    | error e =>
      have hp : isPriced mkt h = false := by simp [isPriced, hq]
      simp [pvLoop, hq, List.filter_cons, hp, ih]
    | ok info =>
      have hp : isPriced mkt h = true := by simp [isPriced, hq]
      have hqo : quoteOf mkt h = info := by simp [quoteOf, hq]
      simp [pvLoop, hq, List.filter_cons, hp, hqo, ih]

/-- A present symbols key always carries a non-empty list. -/
theorem extract_symbols_nonempty (text : String) (l : List String)
    (h : (extract_entities text).symbols = some l) : l.isEmpty = false := by
  simp only [extract_entities] at h
  split at h
  · cases h
  · rename_i hne
    injection h with h1
    subst h1
    exact Bool.not_eq_true _ ▸ Bool.eq_false_iff.mpr hne

/-- A present numbers key always carries a non-empty list. -/
theorem extract_numbers_nonempty (text : String) (l : List ℚ)
    (h : (extract_entities text).numbers = some l) : l.isEmpty = false := by
  simp only [extract_entities] at h
  split at h
  · cases h
  · rename_i hne
    injection h with h1
    subst h1
    exact Bool.not_eq_true _ ▸ Bool.eq_false_iff.mpr hne

/-- C10: for every input text, if the entity map returned by
`extract_entities` contains the symbols (resp. numbers) key then the
list is non-empty, so the dispatcher's `entities['symbols'][0]` /
`entities['numbers'][0]` accesses that are guarded by a key-presence
check on the same key cannot raise IndexError (`index0` succeeds). -/
theorem c10_guarded_entity_access :
    (∀ text : String, entitiesListsNonempty (extract_entities text) = true)
    ∧ (∀ (text : String) (l : List String),
        (extract_entities text).symbols = some l → ∃ x, index0 l = .ok x)
    ∧ (∀ (text : String) (l : List ℚ),
        (extract_entities text).numbers = some l → ∃ x, index0 l = .ok x) := by
  have hsym : ∀ (text : String) (l : List String),
      (extract_entities text).symbols = some l → ∃ x, index0 l = .ok x := by
    intro text l h
    have := extract_symbols_nonempty text l h
    cases l with
    | nil => simp [List.isEmpty] at this
    | cons x t => exact ⟨x, rfl⟩
  have hnum : ∀ (text : String) (l : List ℚ),
      (extract_entities text).numbers = some l → ∃ x, index0 l = .ok x := by
    intro text l h
    have := extract_numbers_nonempty text l h
    cases l with
    | nil => simp [List.isEmpty] at this
    | cons x t => exact ⟨x, rfl⟩
  refine ⟨?_, hsym, hnum⟩
  intro text
  unfold entitiesListsNonempty
  cases hs : (extract_entities text).symbols with
  | none =>
    cases hn : (extract_entities text).numbers with
    | none => rfl
    | some l => simp [extract_numbers_nonempty text l hn]
  | some l =>
    cases hn : (extract_entities text).numbers with
    | none => simp [extract_symbols_nonempty text l hs]
    | some l2 => simp [extract_symbols_nonempty text l hs, extract_numbers_nonempty text l2 hn]

/-- C10 witness: a concrete text whose symbols key is present, with the
guarded head access succeeding. -/
theorem c10_witness :
    (extract_entities "AAPL 10").symbols = some ["AAPL"]
    ∧ (∃ x, index0 ["AAPL"] = Except.ok x) :=
  ⟨by with_unfolding_all decide,
   c10_guarded_entity_access.2.1 "AAPL 10" ["AAPL"] (by with_unfolding_all decide)⟩

/-- C2 counterexample: the input "xyz" does fall through to the
`stock_price` default, but its entity map is not empty — symbol
extraction upper-cases the text first, so "xyz" yields symbols=["XYZ"]. -/
theorem c2_counterexample :
    (classify_intent "xyz").entities ≠ (⟨none, none, none⟩ : Entities)
    ∧ (classify_intent "xyz").entities = ⟨some ["XYZ"], none, none⟩ := by
  with_unfolding_all decide

/-- C2 (amended): classification is total; when no pattern of any intent
matches, `classify_intent` returns action "stock_price", confidence 0.5
and exactly the extracted entities — but for "xyz" those entities are
{symbols := ["XYZ"]}, not the empty map, since the symbol scan runs on
the upper-cased text. -/
theorem c2_fallback_amended (text : String)
    (h : intentPatterns.find? (intentMatches text) = none) :
    classify_intent text = ⟨"stock_price", extract_entities text, 1/2⟩
    ∧ classify_intent "xyz" = ⟨"stock_price", ⟨some ["XYZ"], none, none⟩, 1/2⟩ := by
  constructor
  · unfold classify_intent
    rw [h]
  · with_unfolding_all decide

/-- C2 witness: "xyz" matches no pattern, and the fallback applies. -/
theorem c2_witness :
    intentPatterns.find? (intentMatches "xyz") = none
    ∧ classify_intent "xyz" = ⟨"stock_price", extract_entities "xyz", 1/2⟩ :=
  ⟨by with_unfolding_all decide,
   (c2_fallback_amended "xyz" (by with_unfolding_all decide)).1⟩

/-- Every classified action is one of the six table intents. -/
theorem classify_action_known (text : String) :
    (classify_intent text).action ∈ knownActions := by
  unfold classify_intent
  cases hf : intentPatterns.find? (intentMatches text) with
  | none => simp [knownActions]
  | some ip =>
    have hm : ip ∈ intentPatterns := List.mem_of_find?_eq_some hf
    fin_cases hm <;> simp [knownActions]

/-- For the six table actions, the dispatcher's final else-branch is
never taken: no successful dispatch returns the fallback message. -/
theorem dispatch_no_fallback (fault : Option String) (mkt : Market) (intent : Intent)
    (uid now : String) (st : DbState) (ha : intent.action ∈ knownActions)
    (r : Response) (st' : DbState)
    (hd : dispatch fault mkt intent uid now st = .ok (r, st')) :
    r ≠ Response.message didntUnderstand := by
  intro hc
  subst hc
  simp only [knownActions, List.mem_cons, List.not_mem_nil, or_false] at ha
  rcases ha with h | h | h | h | h | h <;>
    · simp [dispatch, h, bind, Except.bind, pure, Except.pure, didntUnderstand] at hd
      repeat' split at hd
      all_goals simp_all

/-- C9: `classify_intent` always returns one of the six known intents,
so the dispatcher's "I didn't understand" fallback branch is unreachable
for any message processed through the chat endpoint. -/
theorem c9_fallback_unreachable :
    (∀ text : String, (classify_intent text).action ∈ knownActions)
    ∧ (∀ (fault : Option String) (mkt : Market) (uid msg now : String) (st : DbState),
        (chat_endpoint fault mkt uid msg now st).1.response
          ≠ Response.message didntUnderstand) := by
  refine ⟨classify_action_known, ?_⟩
  intro fault mkt uid msg now st
  simp only [chat_endpoint]
  cases hd : dispatch fault mkt (classify_intent msg) uid now st with
  | error e => simp
  | ok p =>
    obtain ⟨r, st'⟩ := p
    simpa using dispatch_no_fallback fault mkt (classify_intent msg) uid now st
      (classify_action_known msg) r st' hd

/-- C9 witness: a concrete unclassifiable message still avoids the
fallback branch. -/
theorem c9_witness :
    (chat_endpoint none mktFail "u1" "hello" "t" emptyDb).1.response
      ≠ Response.message didntUnderstand :=
  c9_fallback_unreachable.2 none mktFail "u1" "hello" "t" emptyDb

/-- The detail entry produced for the `db4` fixture under `mkt4`. -/
def e4 : ValuationEntry := ⟨"AAPL", "Apple Inc.", 10, 100, 120, 1200, 1000, 200, 20⟩

/-- C4: every entry of the valuation detail list satisfies
current_value = round2(quantity × current_price), cost_basis =
round2(quantity × buy_price), profit_loss = round2(current_value −
cost_basis) computed before rounding, profit_loss_pct =
round2(100 × profit_loss ⁄ cost_basis) with the zero-cost guard giving 0
(never a fault); and for the single holding 10 AAPL at 100 with quote
120 the report is exactly 1200 / 1000 / 200 / 20% with totals matching
the one holding. -/
theorem c4_valuation_formulas (mkt : Market) (hs : List HoldingRow) (e : ValuationEntry)
    (he : e ∈ (pvLoop mkt hs).2.2) :
    (e.current_value = round2 (e.quantity * e.current_price)
     ∧ e.cost_basis = round2 (e.quantity * e.buy_price)
     ∧ e.profit_loss = round2 (e.quantity * e.current_price - e.quantity * e.buy_price)
     ∧ e.profit_loss_pct = (if e.quantity * e.buy_price > 0
        then round2 ((e.quantity * e.current_price - e.quantity * e.buy_price)
          / (e.quantity * e.buy_price) * 100)
        else 0)
     ∧ (e.quantity * e.buy_price = 0 → e.profit_loss_pct = 0))
    ∧ calculate_portfolio_value none mkt4 "u1" db4 = .ok (.report rpt4, db4) := by
  constructor
  · rw [pvLoop_details] at he
    obtain ⟨h0, hmem, rfl⟩ := List.mem_map.mp he
    refine ⟨by simp [mkEntry], by simp [mkEntry], by simp [mkEntry], by simp [mkEntry], ?_⟩
    intro hz
    simp only [mkEntry] at hz ⊢
    simp [hz]
  · with_unfolding_all decide

/-- C4 witness: the fixture entry is in the detail list and satisfies
the formulas. -/
theorem c4_witness :
    e4 ∈ (pvLoop mkt4 db4.holdings).2.2
    ∧ ((e4.current_value = round2 (e4.quantity * e4.current_price)
        ∧ e4.cost_basis = round2 (e4.quantity * e4.buy_price)
        ∧ e4.profit_loss = round2 (e4.quantity * e4.current_price - e4.quantity * e4.buy_price)
        ∧ e4.profit_loss_pct = (if e4.quantity * e4.buy_price > 0
            then round2 ((e4.quantity * e4.current_price - e4.quantity * e4.buy_price)
              / (e4.quantity * e4.buy_price) * 100)
            else 0)
        ∧ (e4.quantity * e4.buy_price = 0 → e4.profit_loss_pct = 0))
       ∧ calculate_portfolio_value none mkt4 "u1" db4 = .ok (.report rpt4, db4)) :=
  ⟨by with_unfolding_all decide,
   c4_valuation_formulas mkt4 db4.holdings e4 (by with_unfolding_all decide)⟩

/-- C5: holdings whose quote lookup fails are silently omitted — the
valuation loop gives the same result as if they were absent, and for a
user with at least one holding the report's totals and detail list are
computed over exactly the priced holdings; the report type carries no
field flagging the omission. -/
theorem c5_lossy_aggregation (mkt : Market) (uid : String) (st : DbState)
    (hne : userHoldings uid st ≠ []) :
    pvLoop mkt (userHoldings uid st) = pvLoop mkt (pricedHoldings mkt (userHoldings uid st))
    ∧ calculate_portfolio_value none mkt uid st = .ok (.report {
        total_value := round2 (sumCV mkt (userHoldings uid st)),
        total_cost := round2 (sumCB mkt (userHoldings uid st)),
        total_profit_loss := round2 (sumCV mkt (userHoldings uid st)
          - sumCB mkt (userHoldings uid st)),
        total_profit_loss_pct := if sumCB mkt (userHoldings uid st) > 0
          then round2 ((sumCV mkt (userHoldings uid st) - sumCB mkt (userHoldings uid st))
            / sumCB mkt (userHoldings uid st) * 100)
          else 0,
        holdings := (pricedHoldings mkt (userHoldings uid st)).map
          (fun h => mkEntry h (quoteOf mkt h)) }, st) := by
  refine ⟨pvLoop_skips_unpriced mkt _, ?_⟩
  have hie : (userHoldings uid st).isEmpty = false := by
    cases hl : userHoldings uid st with
    | nil => exact absurd hl hne
    | cons a t => rfl
  simp only [userHoldings] at hie ⊢
  simp only [calculate_portfolio_value, dbGetPortfolio, bind, Except.bind, pure, Except.pure]
  rw [hie]
  simp only [Bool.false_eq_true, if_false]
  rw [pvLoop_total_value, pvLoop_total_cost, pvLoop_details]

/-- C5 witness: with one priced and one unpriceable holding, the report
equals the sums over the priced holding only. -/
theorem c5_witness :
    userHoldings "u1" db5 ≠ []
    ∧ calculate_portfolio_value none mkt4 "u1" db5 = .ok (.report {
        total_value := round2 (sumCV mkt4 (userHoldings "u1" db5)),
        total_cost := round2 (sumCB mkt4 (userHoldings "u1" db5)),
        total_profit_loss := round2 (sumCV mkt4 (userHoldings "u1" db5)
          - sumCB mkt4 (userHoldings "u1" db5)),
        total_profit_loss_pct := if sumCB mkt4 (userHoldings "u1" db5) > 0
          then round2 ((sumCV mkt4 (userHoldings "u1" db5) - sumCB mkt4 (userHoldings "u1" db5))
            / sumCB mkt4 (userHoldings "u1" db5) * 100)
          else 0,
        holdings := (pricedHoldings mkt4 (userHoldings "u1" db5)).map
          (fun h => mkEntry h (quoteOf mkt4 h)) }, db5) :=
  ⟨by with_unfolding_all decide,
   (c5_lossy_aggregation mkt4 "u1" db5 (by with_unfolding_all decide)).2⟩

/-- C6: `simulate_purchase` is a pure projection — whenever it returns,
the store state is unchanged (its only store access is the read inside
`calculate_portfolio_value`) — and when the quote lookup fails, the
gateway's failure object is returned verbatim as the whole result, with
no store access at all. -/
theorem c6_simulate_no_write (fault : Option String) (mkt : Market) (uid symbol : String)
    (q : ℚ) (st : DbState) :
    (∀ (res : Except String Simulation) (st' : DbState),
        simulate_purchase fault mkt uid symbol q st = .ok (res, st') → st' = st)
    ∧ (∀ e, mkt symbol = .error e →
        simulate_purchase fault mkt uid symbol q st = .ok (.error e, st)) := by
  constructor
  · intro res st' hs
    unfold simulate_purchase at hs
    cases hq : mkt symbol with
    | error e =>
      rw [hq] at hs
      injection hs with h1
      injection h1 with h2 h3
      exact h3.symm
    | ok info =>
      rw [hq] at hs
      simp only [bind, Except.bind] at hs
      cases hc : calculate_portfolio_value fault mkt uid st with
      | error e =>
        rw [hc] at hs
        cases hs
      | ok pr =>
        obtain ⟨pv, st2⟩ := pr
        rw [hc] at hs
        simp only [pure, Except.pure, Except.ok.injEq, Prod.mk.injEq] at hs
        exact hs.2 ▸ calcPV_state_eq fault mkt uid st pv st2 hc
  · intro e he
    unfold simulate_purchase
    rw [he]

/-- C6 witness: a failing quote is propagated verbatim on an untouched
store. -/
theorem c6_witness :
    mktFail "AAPL" = Except.error "no data"
    ∧ simulate_purchase none mktFail "u1" "AAPL" 5 emptyDb
        = .ok (.error "no data", emptyDb) :=
  ⟨by with_unfolding_all decide,
   (c6_simulate_no_write none mktFail "u1" "AAPL" 5 emptyDb).2 "no data"
     (by with_unfolding_all decide)⟩

/-- `add_holding` preserves the per-(user_id, symbol) uniqueness of the
holdings table: the conflicting row is removed before the insert. -/
theorem addHolding_preserves_unique (uid symbol : String) (q p : ℚ) (now : String)
    (st : DbState) (h : uniqueHoldingKeys st) :
    uniqueHoldingKeys (addHoldingPure uid symbol q p now st) := by
  unfold uniqueHoldingKeys addHoldingPure at *
  simp only [List.map_append, List.map_cons, List.map_nil]
  rw [List.nodup_append]
  refine ⟨h.sublist ((List.filter_sublist _).map holdingKey), List.nodup_singleton _, ?_⟩
  rw [List.disjoint_singleton]
  intro hmem
  obtain ⟨h0, hm0, hk⟩ := List.mem_map.mp hmem
  have hp := (List.mem_filter.mp hm0).2
  simp only [holdingKey, Prod.mk.injEq] at hk
  simp only [hk.1, hk.2, beq_self_eq_true, Bool.and_self, Bool.not_true] at hp
  exact Bool.false_ne_true hp

/-- Starting from the fresh database, any sequence of `add_holding`
operations keeps at most one row per (user_id, symbol). -/
theorem foldl_addHolding_unique (ops : List (String × String × ℚ × ℚ × String)) :
    ∀ st : DbState, uniqueHoldingKeys st →
      uniqueHoldingKeys (ops.foldl
        (fun s o => addHoldingPure o.1 o.2.1 o.2.2.1 o.2.2.2.1 o.2.2.2.2 s) st) := by
  induction ops with
  | nil => intro st h; exact h
  | cons o t ih =>
    intro st h
    simp only [List.foldl_cons]
    exact ih _ (addHolding_preserves_unique _ _ _ _ _ _ h)

/-- After `add_holding`, the stored row for (user_id, symbol) is the new
quantity / price / date — the prior row is gone. -/
theorem findHolding_after_add (st : DbState) (uid symbol : String) (q p : ℚ) (now : String) :
    findHolding (addHoldingPure uid symbol q p now st) uid symbol
      = some ⟨uid, symbol, q, p, now⟩ := by
  unfold findHolding addHoldingPure
  simp only
  rw [List.find?_append]
  have h1 : (st.holdings.filter fun h => !(h.user_id == uid && h.symbol == symbol)).find?
      (fun h => h.user_id == uid && h.symbol == symbol) = none := by
    rw [List.find?_eq_none]
    intro x hx
    have hp := (List.mem_filter.mp hx).2
    simp at hp ⊢
    tauto
  rw [h1]
  simp [List.find?]

/-- C7: `add_holding` keeps at most one Holding row per (user_id,
symbol): a repeated add replaces the prior row's quantity, price and
date, appends exactly one BUY Transaction, and any sequence of adds from
the fresh database preserves key uniqueness (many transactions, one
holding per key). -/
theorem c7_holding_replacement (st : DbState) (uid symbol : String) (q p : ℚ) (now : String) :
    (uniqueHoldingKeys st → uniqueHoldingKeys (addHoldingPure uid symbol q p now st))
    ∧ findHolding (addHoldingPure uid symbol q p now st) uid symbol
        = some ⟨uid, symbol, q, p, now⟩
    ∧ (addHoldingPure uid symbol q p now st).transactions
        = st.transactions ++ [⟨uid, symbol, "BUY", q, p, now⟩]
    ∧ (∀ ops : List (String × String × ℚ × ℚ × String),
        uniqueHoldingKeys (ops.foldl
          (fun s o => addHoldingPure o.1 o.2.1 o.2.2.1 o.2.2.2.1 o.2.2.2.2 s) emptyDb)) := by
  refine ⟨addHolding_preserves_unique uid symbol q p now st,
    findHolding_after_add st uid symbol q p now, rfl, ?_⟩
  intro ops
  exact foldl_addHolding_unique ops emptyDb (by simp [uniqueHoldingKeys, emptyDb])

/-- C7 witness: a repeated purchase of AAPL replaces the row (5 @ 90
overwrites 10 @ 100) while the transaction log grows. -/
theorem c7_witness :
    uniqueHoldingKeys db4
    ∧ uniqueHoldingKeys (addHoldingPure "u1" "AAPL" 5 90 "t2" db4)
    ∧ findHolding (addHoldingPure "u1" "AAPL" 5 90 "t2" db4) "u1" "AAPL"
        = some ⟨"u1", "AAPL", 5, 90, "t2"⟩
    ∧ (addHoldingPure "u1" "AAPL" 5 90 "t2" db4).transactions
        = db4.transactions ++ [⟨"u1", "AAPL", "BUY", 5, 90, "t2"⟩] :=
  ⟨by with_unfolding_all decide,
   (c7_holding_replacement db4 "u1" "AAPL" 5 90 "t2").1 (by with_unfolding_all decide),
   (c7_holding_replacement db4 "u1" "AAPL" 5 90 "t2").2.1,
   (c7_holding_replacement db4 "u1" "AAPL" 5 90 "t2").2.2.1⟩

/-- The `stock.info` dictionary with every read key missing. -/
def info0 : YfInfo := ⟨none, none, none, none, none⟩

/-- C8 counterexample: with no bars, `get_stock_info` does not return a
quote with day_change = 0 — it returns the `No data found` error
dictionary before `day_change` is ever computed (the `else 0` guard on
day_change is unreachable). -/
theorem c8_counterexample :
    get_stock_info "AAPL" (.ok (info0, [])) = .error "No data found for AAPL" := by
  with_unfolding_all decide

/-- C8 (amended): whenever at least one bar exists, day_change =
round2(last close − last open) of the most recent bar; when no bars
exist the gateway returns the `No data found` error outcome rather than
any quote (and a raised fetch error becomes the `Error fetching data`
outcome). -/
theorem c8_day_change_amended (symbol : String) (info : YfInfo) (hist : List Bar) (b : Bar)
    (hb : hist.getLast? = some b) :
    get_stock_info symbol (.ok (info, hist)) = .ok {
      symbol := symbol,
      name := info.shortName.getD "N/A",
      current_price := round2 b.cls,
      currency := info.currency.getD "USD",
      sector := info.sector.getD "N/A",
      market_cap := info.marketCap.getD 0,
      trailingPE := info.trailingPE,
      day_change := round2 (b.cls - b.opn) }
    ∧ (∀ e, get_stock_info symbol (Except.error e)
        = .error ("Error fetching data for " ++ symbol ++ ": " ++ e))
    ∧ get_stock_info symbol (.ok (info, ([] : List Bar)))
        = .error ("No data found for " ++ symbol) := by
  refine ⟨?_, fun e => rfl, rfl⟩
  have hne : hist ≠ [] := by
    intro hh
    subst hh
    simp at hb
  have hlen : hist.length > 0 := List.length_pos.mpr hne
  simp only [get_stock_info]
  rw [hb]
  simp [hlen]

/-- C8 witness: one bar with open 100 and close 103 gives day_change
round2(3). -/
theorem c8_witness :
    ([⟨100, 103⟩] : List Bar).getLast? = some ⟨100, 103⟩
    ∧ (get_stock_info "AAPL" (.ok (info0, [(⟨100, 103⟩ : Bar)])) = .ok {
        symbol := "AAPL",
        name := info0.shortName.getD "N/A",
        current_price := round2 (103 : ℚ),
        currency := info0.currency.getD "USD",
        sector := info0.sector.getD "N/A",
        market_cap := info0.marketCap.getD 0,
        trailingPE := info0.trailingPE,
        day_change := round2 ((103 : ℚ) - 100) }
       ∧ (∀ e, get_stock_info "AAPL" (Except.error e)
           = .error ("Error fetching data for " ++ "AAPL" ++ ": " ++ e))
       ∧ get_stock_info "AAPL" (.ok (info0, ([] : List Bar)))
           = .error ("No data found for " ++ "AAPL")) :=
  ⟨by with_unfolding_all decide,
   c8_day_change_amended "AAPL" info0 [⟨100, 103⟩] ⟨100, 103⟩ (by with_unfolding_all decide)⟩

/-- C1 counterexample: "I bought AAPL" classifies as add_holding with a
symbol but no numbers; the guard `len(intent.entities['numbers']) >= 2`
raises KeyError, so the response is the caught error object — not the
validation guidance message the claim promises (though still no store
write and no propagated fault). -/
theorem c1_counterexample :
    (chat_endpoint none mktFail "u1" "I bought AAPL" "t" emptyDb).1.response
      = Response.err "An error occurred: \x27numbers\x27"
    ∧ (chat_endpoint none mktFail "u1" "I bought AAPL" "t" emptyDb).1.response
      ≠ Response.message "Please specify symbol, quantity, and purchase price"
    ∧ (chat_endpoint none mktFail "u1" "I bought AAPL" "t" emptyDb).2 = emptyDb
    ∧ (classify_intent "I bought AAPL").action = "add_holding" := by
  with_unfolding_all decide

/-- C1 (amended): for an add_holding intent the guidance message
"Please specify symbol, quantity, and purchase price" is returned (with
no store write) when the symbols key is absent, or when numbers are
present with fewer than two entries; but when a symbol is present and no
numbers were extracted, the guard's KeyError is caught at the router
boundary and the response is the error object "An error occurred:
'numbers'" — still with no store write. -/
theorem c1_add_holding_validation (fault : Option String) (mkt : Market)
    (uid msg now : String) (st : DbState)
    (ha : (classify_intent msg).action = "add_holding") :
    ((classify_intent msg).entities.symbols = none →
      chat_endpoint fault mkt uid msg now st
        = (⟨classify_intent msg,
            .message "Please specify symbol, quantity, and purchase price"⟩, st))
    ∧ (∀ l, (classify_intent msg).entities.symbols = some l →
        (classify_intent msg).entities.numbers = none →
      chat_endpoint fault mkt uid msg now st
        = (⟨classify_intent msg, .err "An error occurred: \x27numbers\x27"⟩, st))
    ∧ (∀ l n, (classify_intent msg).entities.symbols = some l →
        (classify_intent msg).entities.numbers = some n → n.length < 2 →
      chat_endpoint fault mkt uid msg now st
        = (⟨classify_intent msg,
            .message "Please specify symbol, quantity, and purchase price"⟩, st)) := by
  refine ⟨?_, ?_, ?_⟩
  · intro hsym
    simp only [chat_endpoint]
    have hd : dispatch fault mkt (classify_intent msg) uid now st
        = .ok (.message "Please specify symbol, quantity, and purchase price", st) := by
      simp [dispatch, ha, hsym, pure, Except.pure]
    rw [hd]
  · intro l hsym hnum
    simp only [chat_endpoint]
    have hd : dispatch fault mkt (classify_intent msg) uid now st
        = .error "\x27numbers\x27" := by
      simp [dispatch, ha, hsym, getNumbersKey, hnum, bind, Except.bind, pure, Except.pure]
    rw [hd]
    simp
  · intro l n hsym hnum hlen
    simp only [chat_endpoint]
    have hd : dispatch fault mkt (classify_intent msg) uid now st
        = .ok (.message "Please specify symbol, quantity, and purchase price", st) := by
      simp only [dispatch, ha, bind, Except.bind]
      simp [hsym, getNumbersKey, hnum, pure, Except.pure]
      intro h2
      exact absurd h2 (by omega)
    rw [hd]

/-- C1 witness: the amended behaviour at the counterexample input. -/
theorem c1_witness :
    (classify_intent "I bought AAPL").action = "add_holding"
    ∧ chat_endpoint none mktFail "u1" "I bought AAPL" "t" emptyDb
        = (⟨classify_intent "I bought AAPL",
            .err "An error occurred: \x27numbers\x27"⟩, emptyDb) :=
  ⟨by with_unfolding_all decide,
   (c1_add_holding_validation none mktFail "u1" "I bought AAPL" "t" emptyDb
     (by with_unfolding_all decide)).2.1 ["AAPL"]
     (by with_unfolding_all decide) (by with_unfolding_all decide)⟩

/-- C3: the router catches every fault raised during dispatch: the
envelope's intent (action, entities, confidence) is the classified
intent regardless of the outcome, and when the dispatch raises, the
response is the `{"error": "An error occurred: ..."}` object with a
non-empty error string and an unchanged store; `chat_endpoint` is a
total function, so no fault ever propagates to its caller. -/
theorem c3_router_fault_boundary (fault : Option String) (mkt : Market)
    (uid msg now : String) (st : DbState) :
    (chat_endpoint fault mkt uid msg now st).1.intent = classify_intent msg
    ∧ (∀ e, dispatch fault mkt (classify_intent msg) uid now st = .error e →
        (chat_endpoint fault mkt uid msg now st).1.response
          = .err ("An error occurred: " ++ e)
        ∧ ("An error occurred: " ++ e) ≠ ""
        ∧ (chat_endpoint fault mkt uid msg now st).2 = st) := by
  constructor
  · simp only [chat_endpoint]
    cases hd : dispatch fault mkt (classify_intent msg) uid now st with
    | ok pr =>
      obtain ⟨r, st'⟩ := pr
      rfl
    | error e => rfl
  · intro e he
    refine ⟨?_, ?_, ?_⟩
    · simp only [chat_endpoint]
      rw [he]
    · intro hc
      have h2 := congrArg String.length hc
      simp [String.length_append] at h2
      exact absurd h2.1 (by decide)
    · simp only [chat_endpoint]
      rw [he]

/-- C3 witness: a store fault during a show_portfolio dispatch surfaces
as the error response with the intent intact. -/
theorem c3_witness :
    (chat_endpoint (some "db down") mktFail "u1" "show portfolio" "t" emptyDb).1.response
      = Response.err ("An error occurred: " ++ "db down")
    ∧ ("An error occurred: " ++ "db down") ≠ ""
    ∧ (chat_endpoint (some "db down") mktFail "u1" "show portfolio" "t" emptyDb).2 = emptyDb :=
  (c3_router_fault_boundary (some "db down") mktFail "u1" "show portfolio" "t" emptyDb).2
    "db down" (by with_unfolding_all decide)
